import Mathlib

/-
Verification of the dataset query/transform/aggregate/join HTTP handlers of
go-data-api-microservices (internal/handlers/dataset.go) against the
engine specification.  The handlers are embedded as pure Lean functions:
the dataset repository is an oracle from ids to results, the query service
(whose concrete body does not exist in the repository; the handlers only
depend on its interface) is represented by the result value it would
return, and uuid generation and the clock are explicit parameters.  Each
handler returns the list of collaborator calls it makes together with its
HTTP outcome (a response, or a runtime panic from a failed type assertion).
-/

namespace DataApi

/-- Dynamic Go values stored in rows (interface values inside a
map[string]interface{}).  The handlers never compute on row values, they
only move them around, so a small closed universe suffices. -/
inductive GoVal where
  | vnull
  | vstr (s : String)
  | vint (n : Int)
  | vbool (b : Bool)
deriving DecidableEq

/-- A row is a Go map from field names to dynamic values, modeled as an
association list with map-update semantics. -/
abbrev Row := List (String × GoVal)

/-- Go map read: row[k] without the ok flag; absent keys read as nil. -/
def lookupRow : Row → String → Option GoVal
  | [], _ => none
  | (k0, v0) :: rest, k => if k0 = k then some v0 else lookupRow rest k

/-- Go map write: rowMap[k] = v replaces an existing binding or appends. -/
def rowInsert : Row → String → GoVal → Row
  | [], k, v => [(k, v)]
  | (k0, v0) :: rest, k, v =>
      if k0 = k then (k, v) :: rest else (k0, v0) :: rowInsert rest k v

/-- models.DataType is a string enum in the source. -/
abbrev DataType := String

def DataTypeString : DataType := "string"

def DataTypeInteger : DataType := "integer"

def DataTypeFloat : DataType := "float"

def DataTypeBoolean : DataType := "boolean"

def DataTypeDateTime : DataType := "datetime"

def DataTypeArray : DataType := "array"

def DataTypeObject : DataType := "object"

/-- models.DataField.  Default and Metadata are interface-typed in Go; their
zero value nil is GoVal.vnull here. -/
structure DataField where
  name : String
  type : DataType
  description : String := ""
  required : Bool := false
  nullable : Bool := false
  unique : Bool := false
  defaultVal : GoVal := GoVal.vnull
  metadataVal : GoVal := GoVal.vnull
deriving DecidableEq

/-- models.DataSchema. -/
structure DataSchema where
  fields : List DataField
  primaryKey : String := ""
  foreignKeys : List (String × String) := []
  indexes : List String := []
  constraints : List (String × String) := []
  metadata : List (String × GoVal) := []
deriving DecidableEq

/-- models.FilterOperator and models.SortDirection are string enums; the
handlers never interpret them, so plain strings are used. -/
structure FilterCondition where
  field : String
  operator : String
  value : GoVal := GoVal.vnull
deriving DecidableEq

/-- models.SortField. -/
structure SortField where
  field : String
  direction : String
deriving DecidableEq

/-- models.TransformStep; Params is map[string]interface{}. -/
structure TransformStep where
  type : String
  params : List (String × GoVal) := []
deriving DecidableEq

/-- models.AggregationType string constants. -/
def AggregationCount : String := "count"

def AggregationSum : String := "sum"

def AggregationAvg : String := "avg"

def AggregationMin : String := "min"

def AggregationMax : String := "max"

/-- models.AggregationField.  In the Go struct, Type and OutputName carry a
binding required tag while Field carries no binding tag at all. -/
structure AggregationField where
  type : String
  field : String := ""
  outputName : String
deriving DecidableEq

/-- models.JoinCondition. -/
structure JoinCondition where
  leftField : String
  rightField : String
deriving DecidableEq

/-- Values the handlers store into the map[string]interface{} Metadata of a
dataset they create: id strings, group-by lists, transform steps,
aggregation specs, join type and join conditions. -/
inductive MetaVal where
  | mstr (s : String)
  | mstrs (l : List String)
  | msteps (l : List TransformStep)
  | maggs (l : List AggregationField)
  | mconds (l : List JoinCondition)
deriving DecidableEq

/-- Go map read on a metadata map. -/
def metaLookup : List (String × MetaVal) → String → Option MetaVal
  | [], _ => none
  | (k0, v0) :: rest, k => if k0 = k then some v0 else metaLookup rest k

/-- The dynamic type of the interface-typed Data field of models.Dataset:
either a value of type []map[string]interface{} (the only type the
handlers can consume), or anything else, nil included. -/
inductive DataVal where
  | rows (rs : List Row)
  | other
deriving DecidableEq

/-- models.Dataset.  Uuids are modeled as Nat (zero is the zero uuid),
time.Time as an abstract Nat tick. -/
structure Dataset where
  id : Nat
  name : String
  description : String := ""
  schema : DataSchema
  data : DataVal := DataVal.other
  source : String := ""
  format : String := ""
  size : Int := 0
  rowCount : Int := 0
  tags : List String := []
  metadata : List (String × MetaVal) := []
  createdBy : Nat := 0
  createdAt : Nat := 0
  updatedAt : Nat := 0
deriving DecidableEq

/-- uuid.UUID.String() on the Nat model of uuids. -/
def uuidStr (u : Nat) : String := toString u

/-- models.QueryRequest. -/
structure QueryRequest where
  datasetId : Nat
  fields : List String := []
  filters : List FilterCondition := []
  sort : List SortField := []
  limit : Int := 0
  offset : Int := 0
  includeRaw : Bool := false
deriving DecidableEq

/-- models.TransformRequest. -/
structure TransformRequest where
  datasetId : Nat
  steps : List TransformStep
  saveAs : String := ""
deriving DecidableEq

/-- models.AggregateRequest. -/
structure AggregateRequest where
  datasetId : Nat
  groupBy : List String := []
  aggregations : List AggregationField
  having : List FilterCondition := []
  sort : List SortField := []
  limit : Int := 0
  saveAs : String := ""
deriving DecidableEq

/-- models.JoinRequest; JoinType is a string enum never interpreted by the
handlers. -/
structure JoinRequest where
  leftDatasetId : Nat
  rightDatasetId : Nat
  joinType : String
  conditions : List JoinCondition
  fields : List String := []
  saveAs : String := ""
deriving DecidableEq

/-- Gin ShouldBindJSON validation of QueryRequest per its binding tags:
dataset_id is required (non-zero uuid). -/
def bindQueryRequest (req : QueryRequest) : Bool :=
  req.datasetId != 0

/-- Gin validation of TransformRequest: dataset_id and steps required. -/
def bindTransformRequest (req : TransformRequest) : Bool :=
  req.datasetId != 0 && !req.steps.isEmpty

/-- Gin validation of AggregateRequest: dataset_id and aggregations carry a
binding required tag.  No tag constrains the field entry of an
AggregationField, so validation never inspects it. -/
def bindAggregateRequest (req : AggregateRequest) : Bool :=
  req.datasetId != 0 && !req.aggregations.isEmpty

/-- Gin validation of JoinRequest: both dataset ids, join_type and
conditions carry a binding required tag. -/
def bindJoinRequest (req : JoinRequest) : Bool :=
  req.leftDatasetId != 0 && req.rightDatasetId != 0 &&
    req.joinType != "" && !req.conditions.isEmpty

/-- models.QueryResponse.  ExecutionTime (float64 in Go) is an abstract
Int tick; RawSQL has json omitempty, so the empty string is the absent
raw representation. -/
structure QueryResponse where
  data : List Row
  total : Int
  limit : Int := 0
  offset : Int := 0
  rawSQL : String := ""
  executionTime : Int := 0
deriving DecidableEq

/-- models.DatasetResponse: the Dataset fields minus Data. -/
structure DatasetResponse where
  id : Nat
  name : String
  description : String
  schema : DataSchema
  source : String
  format : String
  size : Int
  rowCount : Int
  tags : List String
  metadata : List (String × MetaVal)
  createdBy : Nat
  createdAt : Nat
  updatedAt : Nat
deriving DecidableEq

/-- models.DatasetListResponse. -/
structure DatasetListResponse where
  datasets : List DatasetResponse
  total : Int
  page : Int
  pageSize : Int
deriving DecidableEq

/-- The response conversion performed by ListDatasets. -/
def toDatasetResponse (d : Dataset) : DatasetResponse :=
  { id := d.id, name := d.name, description := d.description,
    schema := d.schema, source := d.source, format := d.format,
    size := d.size, rowCount := d.rowCount, tags := d.tags,
    metadata := d.metadata, createdBy := d.createdBy,
    createdAt := d.createdAt, updatedAt := d.updatedAt }

/-- Bodies of the JSON responses the handlers emit. -/
inductive HttpBody where
  | errMsg (s : String)
  | bindError
  | queryResp (r : QueryResponse)
  | savedInfo (message : String) (datasetId : Nat) (datasetName : String)
      (rowCount : Int) (executionTime : Int)
  | dataResp (data : List Row) (total : Int) (executionTime : Int)
  | listResp (r : DatasetListResponse)
deriving DecidableEq

/-- An HTTP response: status code plus body. -/
structure HttpResponse where
  status : Nat
  body : HttpBody
deriving DecidableEq

/-- Outcome of a handler invocation: a response, or a runtime panic (an
unchecked type assertion failed). -/
inductive Outcome where
  | resp (r : HttpResponse)
  | panicked
deriving DecidableEq

/-- Result of DatasetRepository.FindByID: a repository fault, a nil
dataset, or a found dataset. -/
inductive RepoResult where
  | fault
  | missing
  | found (d : Dataset)
deriving DecidableEq

/-- Collaborator calls a handler can make: the five repository methods plus
the four QueryService pipeline entry points. -/
inductive CallEvent where
  | findByID (id : Nat)
  | findAll (page : Int) (pageSize : Int) (filters : List (String × String))
  | create (d : Dataset)
  | update (d : Dataset)
  | delete (id : Nat)
  | svcQuery
  | svcTransform
  | svcAggregate
  | svcJoin
deriving DecidableEq

/-- Events that mutate an existing dataset through the repository. -/
def isRepoMutation : CallEvent → Bool
  | CallEvent.update _ => true
  | CallEvent.delete _ => true
  | _ => false

/-- FindAll events. -/
def isFindAllEvent : CallEvent → Bool
  | CallEvent.findAll _ _ _ => true
  | _ => false

/-- Create events. -/
def isCreateEvent : CallEvent → Bool
  | CallEvent.create _ => true
  | _ => false

/-- The dataset carried by a Create event. -/
def createdDataset : CallEvent → Option Dataset
  | CallEvent.create d => some d
  | _ => none

/-- Result of QueryService.ExecuteQuery: an error, or rows, total, raw SQL
and execution time. -/
inductive QuerySvcResult where
  | fail
  | ok (data : List Row) (total : Int) (rawSQL : String) (executionTime : Int)
deriving DecidableEq

/-- Result of ExecuteTransform and ExecuteJoin: an error or a dataset. -/
inductive DatasetSvcResult where
  | fail
  | ok (d : Dataset)
deriving DecidableEq

/-- Result of ExecuteAggregate: an error or aggregated rows. -/
inductive AggSvcResult where
  | fail
  | ok (rs : List Row)
deriving DecidableEq

/-- The row rebuilding loop of the direct-return paths of TransformData and
JoinData: rowMap[field.Name] = row[field.Name] over the schema fields. -/
def projectRow (fields : List DataField) (row : Row) : Row :=
  fields.foldl
    (fun acc f => rowInsert acc f.name ((lookupRow row f.name).getD GoVal.vnull))
    []

/-- QueryHandler.QueryData. -/
def queryData (repo : Nat → RepoResult) (svc : QuerySvcResult)
    (req : QueryRequest) : List CallEvent × Outcome :=
  if bindQueryRequest req = false then
    ([], Outcome.resp ⟨400, HttpBody.bindError⟩)
  else
    match repo req.datasetId with
    | RepoResult.fault =>
        ([CallEvent.findByID req.datasetId],
         Outcome.resp ⟨500, HttpBody.errMsg ("Internal server error")⟩)
    | RepoResult.missing =>
        ([CallEvent.findByID req.datasetId],
         Outcome.resp ⟨404, HttpBody.errMsg ("Dataset not found")⟩)
    | RepoResult.found _ =>
        match svc with
        | QuerySvcResult.fail =>
            ([CallEvent.findByID req.datasetId, CallEvent.svcQuery],
             Outcome.resp ⟨500, HttpBody.errMsg ("Error executing query")⟩)
        | QuerySvcResult.ok data total rawSQL executionTime =>
            ([CallEvent.findByID req.datasetId, CallEvent.svcQuery],
             Outcome.resp ⟨200, HttpBody.queryResp
               { data := data, total := total,
                 limit := req.limit, offset := req.offset,
                 rawSQL := if req.includeRaw then rawSQL else "",
                 executionTime := executionTime }⟩)

/-- QueryHandler.TransformData.  userCtx models c.Get("user_id"), freshId
the uuid.New() call, now the time.Now() calls, elapsed the measured
execution time, createFails whether repository Create returns an error. -/
def transformData (repo : Nat → RepoResult) (svc : DatasetSvcResult)
    (userCtx : Option Nat) (freshId : Nat) (now : Nat) (elapsed : Int)
    (createFails : Bool) (req : TransformRequest) : List CallEvent × Outcome :=
  if bindTransformRequest req = false then
    ([], Outcome.resp ⟨400, HttpBody.bindError⟩)
  else
    match repo req.datasetId with
    | RepoResult.fault =>
        ([CallEvent.findByID req.datasetId],
         Outcome.resp ⟨500, HttpBody.errMsg ("Internal server error")⟩)
    | RepoResult.missing =>
        ([CallEvent.findByID req.datasetId],
         Outcome.resp ⟨404, HttpBody.errMsg ("Dataset not found")⟩)
    | RepoResult.found dataset =>
        match svc with
        | DatasetSvcResult.fail =>
            ([CallEvent.findByID req.datasetId, CallEvent.svcTransform],
             Outcome.resp ⟨500, HttpBody.errMsg ("Error executing transform")⟩)
        | DatasetSvcResult.ok result =>
            if req.saveAs ≠ "" then
              match userCtx with
              | none =>
                  ([CallEvent.findByID req.datasetId, CallEvent.svcTransform],
                   Outcome.resp ⟨401, HttpBody.errMsg ("Unauthorized")⟩)
              | some userId =>
                  match result.data with
                  | DataVal.other =>
                      ([CallEvent.findByID req.datasetId, CallEvent.svcTransform],
                       Outcome.panicked)
                  | DataVal.rows rs =>
                      let newDataset : Dataset :=
                        { id := freshId, name := req.saveAs,
                          description := "Transformed from " ++ dataset.name,
                          schema := result.schema,
                          source := "transform", format := dataset.format,
                          size := result.size,
                          rowCount := Int.ofNat rs.length,
                          tags := dataset.tags,
                          metadata :=
                            [("source_dataset", MetaVal.mstr (uuidStr dataset.id)),
                             ("transform_steps", MetaVal.msteps req.steps)],
                          createdBy := userId,
                          createdAt := now, updatedAt := now }
                      if createFails then
                        ([CallEvent.findByID req.datasetId, CallEvent.svcTransform,
                          CallEvent.create newDataset],
                         Outcome.resp ⟨500,
                           HttpBody.errMsg ("Error saving transformed dataset")⟩)
                      else
                        ([CallEvent.findByID req.datasetId, CallEvent.svcTransform,
                          CallEvent.create newDataset],
                         Outcome.resp ⟨200,
                           HttpBody.savedInfo
                             ("Transform executed and saved successfully")
                             freshId req.saveAs (Int.ofNat rs.length) elapsed⟩)
            else
              match result.data with
              | DataVal.other =>
                  ([CallEvent.findByID req.datasetId, CallEvent.svcTransform],
                   Outcome.panicked)
              | DataVal.rows rs =>
                  let data := rs.map (projectRow result.schema.fields)
                  ([CallEvent.findByID req.datasetId, CallEvent.svcTransform],
                   Outcome.resp ⟨200,
                     HttpBody.dataResp data (Int.ofNat data.length) elapsed⟩)

/-- The switch in AggregateData choosing the declared type of an
aggregation output column: count maps to integer, sum, avg, min and max
map to float, and the default branch also yields float. -/
def aggFieldType (t : String) : DataType :=
  if t = AggregationCount then DataTypeInteger
  else if t = AggregationSum then DataTypeFloat
  else if t = AggregationAvg then DataTypeFloat
  else if t = AggregationMin then DataTypeFloat
  else if t = AggregationMax then DataTypeFloat
  else DataTypeFloat

/-- The schema AggregateData derives for a saved aggregation result: one
string-typed field per group-by entry (the source comments this choice
with Assuming string for simplicity), then one field per aggregation
named by its output name and typed by aggFieldType. -/
def aggSchemaFields (groupBy : List String) (aggs : List AggregationField) :
    List DataField :=
  groupBy.map (fun f =>
    { name := f, type := DataTypeString, required := true, nullable := false }) ++
  aggs.map (fun a =>
    { name := a.outputName, type := aggFieldType a.type,
      required := true, nullable := false })

/-- QueryHandler.AggregateData. -/
def aggregateData (repo : Nat → RepoResult) (svc : AggSvcResult)
    (userCtx : Option Nat) (freshId : Nat) (now : Nat) (elapsed : Int)
    (createFails : Bool) (req : AggregateRequest) : List CallEvent × Outcome :=
  if bindAggregateRequest req = false then
    ([], Outcome.resp ⟨400, HttpBody.bindError⟩)
  else
    match repo req.datasetId with
    | RepoResult.fault =>
        ([CallEvent.findByID req.datasetId],
         Outcome.resp ⟨500, HttpBody.errMsg ("Internal server error")⟩)
    | RepoResult.missing =>
        ([CallEvent.findByID req.datasetId],
         Outcome.resp ⟨404, HttpBody.errMsg ("Dataset not found")⟩)
    | RepoResult.found dataset =>
        match svc with
        | AggSvcResult.fail =>
            ([CallEvent.findByID req.datasetId, CallEvent.svcAggregate],
             Outcome.resp ⟨500, HttpBody.errMsg ("Error executing aggregate")⟩)
        | AggSvcResult.ok result =>
            if req.saveAs ≠ "" then
              match userCtx with
              | none =>
                  ([CallEvent.findByID req.datasetId, CallEvent.svcAggregate],
                   Outcome.resp ⟨401, HttpBody.errMsg ("Unauthorized")⟩)
              | some userId =>
                  let newDataset : Dataset :=
                    { id := freshId, name := req.saveAs,
                      description := "Aggregated from " ++ dataset.name,
                      schema := { fields := aggSchemaFields req.groupBy req.aggregations },
                      source := "aggregate", format := dataset.format,
                      rowCount := Int.ofNat result.length,
                      tags := dataset.tags,
                      metadata :=
                        [("source_dataset", MetaVal.mstr (uuidStr dataset.id)),
                         ("group_by", MetaVal.mstrs req.groupBy),
                         ("aggregations", MetaVal.maggs req.aggregations)],
                      createdBy := userId,
                      createdAt := now, updatedAt := now }
                  if createFails then
                    ([CallEvent.findByID req.datasetId, CallEvent.svcAggregate,
                      CallEvent.create newDataset],
                     Outcome.resp ⟨500,
                       HttpBody.errMsg ("Error saving aggregated dataset")⟩)
                  else
                    ([CallEvent.findByID req.datasetId, CallEvent.svcAggregate,
                      CallEvent.create newDataset],
                     Outcome.resp ⟨200,
                       HttpBody.savedInfo
                         ("Aggregate executed and saved successfully")
                         freshId req.saveAs (Int.ofNat result.length) elapsed⟩)
            else
              ([CallEvent.findByID req.datasetId, CallEvent.svcAggregate],
               Outcome.resp ⟨200,
                 HttpBody.dataResp result (Int.ofNat result.length) elapsed⟩)

/-- QueryHandler.JoinData. -/
def joinData (repo : Nat → RepoResult) (svc : DatasetSvcResult)
    (userCtx : Option Nat) (freshId : Nat) (now : Nat) (elapsed : Int)
    (createFails : Bool) (req : JoinRequest) : List CallEvent × Outcome :=
  if bindJoinRequest req = false then
    ([], Outcome.resp ⟨400, HttpBody.bindError⟩)
  else
    match repo req.leftDatasetId with
    | RepoResult.fault =>
        ([CallEvent.findByID req.leftDatasetId],
         Outcome.resp ⟨500, HttpBody.errMsg ("Internal server error")⟩)
    | RepoResult.missing =>
        ([CallEvent.findByID req.leftDatasetId],
         Outcome.resp ⟨404, HttpBody.errMsg ("Left dataset not found")⟩)
    | RepoResult.found leftDataset =>
        match repo req.rightDatasetId with
        | RepoResult.fault =>
            ([CallEvent.findByID req.leftDatasetId,
              CallEvent.findByID req.rightDatasetId],
             Outcome.resp ⟨500, HttpBody.errMsg ("Internal server error")⟩)
        | RepoResult.missing =>
            ([CallEvent.findByID req.leftDatasetId,
              CallEvent.findByID req.rightDatasetId],
             Outcome.resp ⟨404, HttpBody.errMsg ("Right dataset not found")⟩)
        | RepoResult.found rightDataset =>
            match svc with
            | DatasetSvcResult.fail =>
                ([CallEvent.findByID req.leftDatasetId,
                  CallEvent.findByID req.rightDatasetId, CallEvent.svcJoin],
                 Outcome.resp ⟨500, HttpBody.errMsg ("Error executing join")⟩)
            | DatasetSvcResult.ok result =>
                if req.saveAs ≠ "" then
                  match userCtx with
                  | none =>
                      ([CallEvent.findByID req.leftDatasetId,
                        CallEvent.findByID req.rightDatasetId, CallEvent.svcJoin],
                       Outcome.resp ⟨401, HttpBody.errMsg ("Unauthorized")⟩)
                  | some userId =>
                      match result.data with
                      | DataVal.other =>
                          ([CallEvent.findByID req.leftDatasetId,
                            CallEvent.findByID req.rightDatasetId, CallEvent.svcJoin],
                           Outcome.panicked)
                      | DataVal.rows rs =>
                          let newDataset : Dataset :=
                            { id := freshId, name := req.saveAs,
                              description := "Joined from " ++ leftDataset.name ++
                                " and " ++ rightDataset.name,
                              schema := result.schema,
                              source := "join", format := leftDataset.format,
                              size := result.size,
                              rowCount := Int.ofNat rs.length,
                              tags := leftDataset.tags ++ rightDataset.tags,
                              metadata :=
                                [("left_dataset", MetaVal.mstr (uuidStr leftDataset.id)),
                                 ("right_dataset", MetaVal.mstr (uuidStr rightDataset.id)),
                                 ("join_type", MetaVal.mstr req.joinType),
                                 ("conditions", MetaVal.mconds req.conditions)],
                              createdBy := userId,
                              createdAt := now, updatedAt := now }
                          if createFails then
                            ([CallEvent.findByID req.leftDatasetId,
                              CallEvent.findByID req.rightDatasetId, CallEvent.svcJoin,
                              CallEvent.create newDataset],
                             Outcome.resp ⟨500,
                               HttpBody.errMsg ("Error saving joined dataset")⟩)
                          else
                            ([CallEvent.findByID req.leftDatasetId,
                              CallEvent.findByID req.rightDatasetId, CallEvent.svcJoin,
                              CallEvent.create newDataset],
                             Outcome.resp ⟨200,
                               HttpBody.savedInfo
                                 ("Join executed and saved successfully")
                                 freshId req.saveAs (Int.ofNat rs.length) elapsed⟩)
                else
                  match result.data with
                  | DataVal.other =>
                      ([CallEvent.findByID req.leftDatasetId,
                        CallEvent.findByID req.rightDatasetId, CallEvent.svcJoin],
                       Outcome.panicked)
                  | DataVal.rows rs =>
                      let data := rs.map (projectRow result.schema.fields)
                      ([CallEvent.findByID req.leftDatasetId,
                        CallEvent.findByID req.rightDatasetId, CallEvent.svcJoin],
                       Outcome.resp ⟨200,
                         HttpBody.dataResp data (Int.ofNat data.length) elapsed⟩)

/-- Digit run accumulator for goAtoi. -/
def digitsAux : List Char → Nat → Option Nat
  | [], acc => some acc
  | c :: rest, acc =>
      if c.isDigit then digitsAux rest (acc * 10 + (c.toNat - 48)) else none

/-- Parse a non-empty run of decimal digits. -/
def parseDigits : List Char → Option Nat
  | [] => none
  | cs => digitsAux cs 0

/-- strconv.Atoi on a 64-bit platform: optional sign, a non-empty digit
run, nothing else, and the value must fit in a signed 64-bit integer. -/
def goAtoi (s : String) : Option Int :=
  let cs := s.toList
  let signed : Bool × List Char :=
    match cs with
    | '-' :: rest => (true, rest)
    | '+' :: rest => (false, rest)
    | _ => (false, cs)
  match parseDigits signed.2 with
  | none => none
  | some n =>
      let v : Int := if signed.1 then -(n : Int) else (n : Int)
      if v < -(2 ^ 63) || 2 ^ 63 - 1 < v then none else some v

/-- The page parsing of ListDatasets: DefaultQuery with default 1, then
fall back to 1 on a parse error or a value below 1. -/
def parsePage (q : Option String) : Int :=
  match goAtoi (q.getD "1") with
  | none => 1
  | some page => if page < 1 then 1 else page

/-- The page_size parsing of ListDatasets: DefaultQuery with default 10,
then fall back to 10 on a parse error, a value below 1 or above 100. -/
def parsePageSize (q : Option String) : Int :=
  match goAtoi (q.getD "10") with
  | none => 10
  | some pageSize =>
      if pageSize < 1 || 100 < pageSize then 10 else pageSize

/-- Result of DatasetRepository.FindAll. -/
inductive FindAllResult where
  | fault
  | ok (datasets : List Dataset) (total : Int)
deriving DecidableEq

/-- The filter map ListDatasets builds from the name and tag query
parameters (c.Query yields the empty string for an absent parameter). -/
def listFilters (nameQ tagQ : Option String) : List (String × String) :=
  (if (nameQ.getD "") ≠ "" then [("name", nameQ.getD "")] else []) ++
  (if (tagQ.getD "") ≠ "" then [("tag", tagQ.getD "")] else [])

/-- DatasetHandler.ListDatasets.  The four query parameters model
c.Query / c.DefaultQuery (none is an absent parameter). -/
def listDatasets (findAllRes : FindAllResult)
    (pageQ pageSizeQ nameQ tagQ : Option String) : List CallEvent × Outcome :=
  let page := parsePage pageQ
  let pageSize := parsePageSize pageSizeQ
  let filters : List (String × String) := listFilters nameQ tagQ
  match findAllRes with
  | FindAllResult.fault =>
      ([CallEvent.findAll page pageSize filters],
       Outcome.resp ⟨500, HttpBody.errMsg ("Internal server error")⟩)
  | FindAllResult.ok datasets total =>
      ([CallEvent.findAll page pageSize filters],
       Outcome.resp ⟨200, HttpBody.listResp
         { datasets := datasets.map toDatasetResponse, total := total,
           page := page, pageSize := pageSize }⟩)

/-- A concrete dataset with id 1, used to instantiate the theorems. -/
def dsOne : Dataset :=
  { id := 1, name := "alpha", schema := { fields := [] } }

/-- A concrete dataset with id 2. -/
def dsTwo : Dataset :=
  { id := 2, name := "beta", schema := { fields := [] } }

/-- A repository holding only dsOne. -/
def repoOne : Nat → RepoResult :=
  fun i => if i = 1 then RepoResult.found dsOne else RepoResult.missing

/-- A repository holding dsOne and dsTwo. -/
def repoTwo : Nat → RepoResult :=
  fun i =>
    if i = 1 then RepoResult.found dsOne
    else if i = 2 then RepoResult.found dsTwo
    else RepoResult.missing

/-- A repository where every lookup misses. -/
def repoEmpty : Nat → RepoResult := fun _ => RepoResult.missing

/-- A concrete service result whose Data is of type
[]map[string]interface{}: one row with keys a and b, under a schema that
lists only the field a. -/
def resultRowsDs : Dataset :=
  { id := 3, name := "res",
    schema := { fields := [{ name := "a", type := DataTypeString }] },
    data := DataVal.rows [[("a", GoVal.vint 1), ("b", GoVal.vint 2)]] }

/-- A concrete join request referencing datasets 5 and 6. -/
def joinReqMissing : JoinRequest :=
  { leftDatasetId := 5, rightDatasetId := 6, joinType := "inner",
    conditions := [{ leftField := "a", rightField := "b" }] }

/-- A source schema typing region as integer and sales as float. -/
def srcSchemaC2 : DataSchema :=
  { fields :=
      [{ name := "region", type := DataTypeInteger, required := true,
         nullable := false },
       { name := "sales", type := DataTypeFloat }] }

/-- A concrete source dataset with the integer-typed region field. -/
def srcDatasetC2 : Dataset :=
  { id := 1, name := "sales", schema := srcSchemaC2 }

/-- A repository holding only srcDatasetC2. -/
def repoC2 : Nat → RepoResult :=
  fun i => if i = 1 then RepoResult.found srcDatasetC2 else RepoResult.missing

/-- A concrete aggregate request grouping by region, summing sales and
saving the result. -/
def reqC2 : AggregateRequest :=
  { datasetId := 1, groupBy := ["region"],
    aggregations :=
      [{ type := AggregationSum, field := "sales", outputName := "total" }],
    saveAs := "agg1" }

/-- A concrete aggregate request whose single sum aggregation omits the
field entry (Go zero value, absent in JSON). -/
def reqC7 : AggregateRequest :=
  { datasetId := 1,
    aggregations := [{ type := AggregationSum, outputName := "total" }] }

/-- Helper lemma: reading a Go map after a write sees the written value at
the written key and is unchanged elsewhere. -/
theorem lookupRow_rowInsert (r : Row) (k : String) (v : GoVal) (n : String) :
    lookupRow (rowInsert r k v) n = if k = n then some v else lookupRow r n := by
  induction r with
  | nil => simp [rowInsert, lookupRow]
  | cons p rest ih =>
      obtain ⟨k0, v0⟩ := p
      by_cases h : k0 = k
      · subst h
        by_cases hn : k0 = n <;> simp [rowInsert, lookupRow, hn]
      · by_cases hn : k0 = n
        · subst hn
          have hk : ¬k = k0 := fun hh => h hh.symm
          simp [rowInsert, lookupRow, h, hk]
        · simp [rowInsert, lookupRow, h, hn, ih]

/-- Helper lemma: the row rebuilding fold of the direct-return paths,
characterized for an arbitrary accumulator. -/
theorem lookupRow_project_aux (row : Row) (fields : List DataField)
    (acc : Row) (n : String) :
    lookupRow
      (fields.foldl
        (fun a f => rowInsert a f.name ((lookupRow row f.name).getD GoVal.vnull))
        acc) n =
      if n ∈ fields.map DataField.name then
        some ((lookupRow row n).getD GoVal.vnull)
      else lookupRow acc n := by
  induction fields generalizing acc with
  | nil => simp
  | cons f fs ih =>
      simp only [List.foldl_cons, List.map_cons, List.mem_cons]
      rw [ih]
      by_cases hmem : n ∈ fs.map DataField.name
      · simp [hmem]
      · by_cases hf : n = f.name
        · subst hf
          simp [hmem, lookupRow_rowInsert]
        · have hf2 : ¬f.name = n := fun hh => hf hh.symm
          simp [hmem, hf, hf2, lookupRow_rowInsert]

/-- Helper lemma: full characterization of projectRow by lookup. -/
theorem lookupRow_projectRow (fields : List DataField) (row : Row) (n : String) :
    lookupRow (projectRow fields row) n =
      if n ∈ fields.map DataField.name then
        some ((lookupRow row n).getD GoVal.vnull)
      else none := by
  unfold projectRow
  rw [lookupRow_project_aux]
  rfl

/-- Helper lemma: parsed page numbers are at least 1. -/
theorem parsePage_pos (q : Option String) : 1 ≤ parsePage q := by
  unfold parsePage
  rcases h : goAtoi (q.getD "1") with _ | p
  · simp
  · simp only []
    split <;> omega

/-- Helper lemma: parsed page sizes lie between 1 and 100. -/
theorem parsePageSize_bounds (q : Option String) :
    1 ≤ parsePageSize q ∧ parsePageSize q ≤ 100 := by
  unfold parsePageSize
  rcases h : goAtoi (q.getD "10") with _ | p
  · simp
  · simp only []
    split
    · omega
    · rename_i hcond
      simp only [Bool.or_eq_true, decide_eq_true_eq, not_or] at hcond
      omega

/-- Helper lemma: the collaborator call trace of QueryData is one of three
shapes, none containing a repository write. -/
theorem queryData_trace_shape (repo : Nat → RepoResult) (svc : QuerySvcResult)
    (req : QueryRequest) :
    (queryData repo svc req).1 = [] ∨
    (queryData repo svc req).1 = [CallEvent.findByID req.datasetId] ∨
    (queryData repo svc req).1 =
      [CallEvent.findByID req.datasetId, CallEvent.svcQuery] := by
  unfold queryData
  split
  · exact Or.inl rfl
  · split
    · exact Or.inr (Or.inl rfl)
    · exact Or.inr (Or.inl rfl)
    · split
      · exact Or.inr (Or.inr rfl)
      · exact Or.inr (Or.inr rfl)

/-- Helper lemma: the collaborator call trace of TransformData is one of
four shapes; a Create occurs only with a non-empty save_as and carries the
freshly generated id. -/
theorem transformData_trace_shape (repo : Nat → RepoResult)
    (svc : DatasetSvcResult) (userCtx : Option Nat) (freshId now : Nat)
    (elapsed : Int) (createFails : Bool) (req : TransformRequest) :
    (transformData repo svc userCtx freshId now elapsed createFails req).1 = [] ∨
    (transformData repo svc userCtx freshId now elapsed createFails req).1 =
      [CallEvent.findByID req.datasetId] ∨
    (transformData repo svc userCtx freshId now elapsed createFails req).1 =
      [CallEvent.findByID req.datasetId, CallEvent.svcTransform] ∨
    (∃ d, (transformData repo svc userCtx freshId now elapsed createFails req).1 =
        [CallEvent.findByID req.datasetId, CallEvent.svcTransform,
         CallEvent.create d] ∧
      d.id = freshId ∧ req.saveAs ≠ "") := by
  unfold transformData
  split
  · exact Or.inl rfl
  · split
    · exact Or.inr (Or.inl rfl)
    · exact Or.inr (Or.inl rfl)
    · split
      · exact Or.inr (Or.inr (Or.inl rfl))
      · split
        · split
          · exact Or.inr (Or.inr (Or.inl rfl))
          · split
            · exact Or.inr (Or.inr (Or.inl rfl))
            · split
              · exact Or.inr (Or.inr (Or.inr ⟨_, rfl, rfl, by assumption⟩))
              · exact Or.inr (Or.inr (Or.inr ⟨_, rfl, rfl, by assumption⟩))
        · split
          · exact Or.inr (Or.inr (Or.inl rfl))
          · exact Or.inr (Or.inr (Or.inl rfl))

/-- Helper lemma: the collaborator call trace of AggregateData is one of
four shapes; a Create occurs only with a non-empty save_as and carries the
freshly generated id. -/
theorem aggregateData_trace_shape (repo : Nat → RepoResult)
    (svc : AggSvcResult) (userCtx : Option Nat) (freshId now : Nat)
    (elapsed : Int) (createFails : Bool) (req : AggregateRequest) :
    (aggregateData repo svc userCtx freshId now elapsed createFails req).1 = [] ∨
    (aggregateData repo svc userCtx freshId now elapsed createFails req).1 =
      [CallEvent.findByID req.datasetId] ∨
    (aggregateData repo svc userCtx freshId now elapsed createFails req).1 =
      [CallEvent.findByID req.datasetId, CallEvent.svcAggregate] ∨
    (∃ d, (aggregateData repo svc userCtx freshId now elapsed createFails req).1 =
        [CallEvent.findByID req.datasetId, CallEvent.svcAggregate,
         CallEvent.create d] ∧
      d.id = freshId ∧ req.saveAs ≠ "") := by
  unfold aggregateData
  split
  · exact Or.inl rfl
  · split
    · exact Or.inr (Or.inl rfl)
    · exact Or.inr (Or.inl rfl)
    · split
      · exact Or.inr (Or.inr (Or.inl rfl))
      · split
        · split
          · exact Or.inr (Or.inr (Or.inl rfl))
          · split
            · exact Or.inr (Or.inr (Or.inr ⟨_, rfl, rfl, by assumption⟩))
            · exact Or.inr (Or.inr (Or.inr ⟨_, rfl, rfl, by assumption⟩))
        · exact Or.inr (Or.inr (Or.inl rfl))

/-- Helper lemma: the collaborator call trace of JoinData is one of five
shapes; a Create occurs only with a non-empty save_as and carries the
freshly generated id. -/
theorem joinData_trace_shape (repo : Nat → RepoResult)
    (svc : DatasetSvcResult) (userCtx : Option Nat) (freshId now : Nat)
    (elapsed : Int) (createFails : Bool) (req : JoinRequest) :
    (joinData repo svc userCtx freshId now elapsed createFails req).1 = [] ∨
    (joinData repo svc userCtx freshId now elapsed createFails req).1 =
      [CallEvent.findByID req.leftDatasetId] ∨
    (joinData repo svc userCtx freshId now elapsed createFails req).1 =
      [CallEvent.findByID req.leftDatasetId,
       CallEvent.findByID req.rightDatasetId] ∨
    (joinData repo svc userCtx freshId now elapsed createFails req).1 =
      [CallEvent.findByID req.leftDatasetId,
       CallEvent.findByID req.rightDatasetId, CallEvent.svcJoin] ∨
    (∃ d, (joinData repo svc userCtx freshId now elapsed createFails req).1 =
        [CallEvent.findByID req.leftDatasetId,
         CallEvent.findByID req.rightDatasetId, CallEvent.svcJoin,
         CallEvent.create d] ∧
      d.id = freshId ∧ req.saveAs ≠ "") := by
  unfold joinData
  split
  · exact Or.inl rfl
  · split
    · exact Or.inr (Or.inl rfl)
    · exact Or.inr (Or.inl rfl)
    · split
      · exact Or.inr (Or.inr (Or.inl rfl))
      · exact Or.inr (Or.inr (Or.inl rfl))
      · split
        · exact Or.inr (Or.inr (Or.inr (Or.inl rfl)))
        · split
          · split
            · exact Or.inr (Or.inr (Or.inr (Or.inl rfl)))
            · split
              · exact Or.inr (Or.inr (Or.inr (Or.inl rfl)))
              · split
                · exact Or.inr (Or.inr (Or.inr (Or.inr ⟨_, rfl, rfl, by assumption⟩)))
                · exact Or.inr (Or.inr (Or.inr (Or.inr ⟨_, rfl, rfl, by assumption⟩)))
          · split
            · exact Or.inr (Or.inr (Or.inr (Or.inl rfl)))
            · exact Or.inr (Or.inr (Or.inr (Or.inl rfl)))

/-- C1 counterexample: the claim states that a missing dataset makes every
one of the four operations fail with the body message Dataset not found,
but when the left operand of a join is missing, JoinData responds with the
message Left dataset not found, which is a different string. -/
theorem c1_counterexample :
    (joinData repoEmpty DatasetSvcResult.fail none 0 0 0 false joinReqMissing).2 =
      Outcome.resp ⟨404, HttpBody.errMsg ("Left dataset not found")⟩ ∧
    ("Left dataset not found" : String) ≠ "Dataset not found" := by
  exact ⟨rfl, by decide⟩

/-- C1 (amended): if the repository resolves no dataset for a referenced
dataset id, each operation fails with HTTP 404 and an operation-specific
not-found message (Dataset not found for query, transform and aggregate;
Left dataset not found or Right dataset not found for join) and the query
service pipeline is never invoked; the join pipeline runs only after both
operands resolved to existing datasets. -/
theorem c1_not_found_before_pipeline :
    (∀ repo svc req, bindQueryRequest req = true →
      repo req.datasetId = RepoResult.missing →
      (queryData repo svc req).2 =
        Outcome.resp ⟨404, HttpBody.errMsg ("Dataset not found")⟩ ∧
      CallEvent.svcQuery ∉ (queryData repo svc req).1) ∧
    (∀ repo svc userCtx freshId now elapsed createFails req,
      bindTransformRequest req = true →
      repo req.datasetId = RepoResult.missing →
      (transformData repo svc userCtx freshId now elapsed createFails req).2 =
        Outcome.resp ⟨404, HttpBody.errMsg ("Dataset not found")⟩ ∧
      CallEvent.svcTransform ∉
        (transformData repo svc userCtx freshId now elapsed createFails req).1) ∧
    (∀ repo svc userCtx freshId now elapsed createFails req,
      bindAggregateRequest req = true →
      repo req.datasetId = RepoResult.missing →
      (aggregateData repo svc userCtx freshId now elapsed createFails req).2 =
        Outcome.resp ⟨404, HttpBody.errMsg ("Dataset not found")⟩ ∧
      CallEvent.svcAggregate ∉
        (aggregateData repo svc userCtx freshId now elapsed createFails req).1) ∧
    (∀ repo svc userCtx freshId now elapsed createFails req,
      bindJoinRequest req = true →
      (repo req.leftDatasetId = RepoResult.missing →
        (joinData repo svc userCtx freshId now elapsed createFails req).2 =
          Outcome.resp ⟨404, HttpBody.errMsg ("Left dataset not found")⟩ ∧
        CallEvent.svcJoin ∉
          (joinData repo svc userCtx freshId now elapsed createFails req).1) ∧
      (∀ dl, repo req.leftDatasetId = RepoResult.found dl →
        repo req.rightDatasetId = RepoResult.missing →
        (joinData repo svc userCtx freshId now elapsed createFails req).2 =
          Outcome.resp ⟨404, HttpBody.errMsg ("Right dataset not found")⟩ ∧
        CallEvent.svcJoin ∉
          (joinData repo svc userCtx freshId now elapsed createFails req).1) ∧
      (CallEvent.svcJoin ∈
          (joinData repo svc userCtx freshId now elapsed createFails req).1 →
        ∃ dl dr, repo req.leftDatasetId = RepoResult.found dl ∧
          repo req.rightDatasetId = RepoResult.found dr)) := by
  refine ⟨?_, ?_, ?_, ?_⟩
  · intro repo svc req hb hm
    simp [queryData, hb, hm]
  · intro repo svc userCtx freshId now elapsed createFails req hb hm
    simp [transformData, hb, hm]
  · intro repo svc userCtx freshId now elapsed createFails req hb hm
    simp [aggregateData, hb, hm]
  · intro repo svc userCtx freshId now elapsed createFails req hb
    refine ⟨?_, ?_, ?_⟩
    · intro hm
      simp [joinData, hb, hm]
    · intro dl hl hm
      simp [joinData, hb, hl, hm]
    · intro hmem
      rcases hl : repo req.leftDatasetId with _ | _ | dl
      · simp [joinData, hb, hl] at hmem
      · simp [joinData, hb, hl] at hmem
      · rcases hr : repo req.rightDatasetId with _ | _ | dr
        · simp [joinData, hb, hl, hr] at hmem
        · simp [joinData, hb, hl, hr] at hmem
        · exact ⟨dl, dr, rfl, rfl⟩

/-- C1 witness: the amended theorem applied to a concrete missing dataset
on the query operation. -/
theorem c1_witness :
    (queryData repoEmpty QuerySvcResult.fail { datasetId := 1 }).2 =
      Outcome.resp ⟨404, HttpBody.errMsg ("Dataset not found")⟩ :=
  (c1_not_found_before_pipeline.1 repoEmpty QuerySvcResult.fail
    { datasetId := 1 } (by decide) rfl).1

/-- C3 counterexample: a query service failure on an existing dataset is
answered with HTTP 500 and the fixed body Error executing query, not with
a 400 response carrying the error kind and message. -/
theorem c3_counterexample :
    (queryData repoOne QuerySvcResult.fail { datasetId := 1 }).2 =
      Outcome.resp ⟨500, HttpBody.errMsg ("Error executing query")⟩ ∧
    (500 : Nat) ≠ 400 := by
  exact ⟨rfl, by decide⟩

/-- C3 (amended): every error the query service reports is mapped by the
HTTP layer to status 500 with a generic operation-specific message (Error
executing query, transform, aggregate or join); neither the error kind nor
its message reaches the caller, and 404 is produced only by the dataset
existence checks, before the service runs. -/
theorem c3_service_errors_map_to_500 :
    (∀ repo req d, bindQueryRequest req = true →
      repo req.datasetId = RepoResult.found d →
      (queryData repo QuerySvcResult.fail req).2 =
        Outcome.resp ⟨500, HttpBody.errMsg ("Error executing query")⟩) ∧
    (∀ repo userCtx freshId now elapsed createFails req d,
      bindTransformRequest req = true →
      repo req.datasetId = RepoResult.found d →
      (transformData repo DatasetSvcResult.fail userCtx freshId now elapsed
          createFails req).2 =
        Outcome.resp ⟨500, HttpBody.errMsg ("Error executing transform")⟩) ∧
    (∀ repo userCtx freshId now elapsed createFails req d,
      bindAggregateRequest req = true →
      repo req.datasetId = RepoResult.found d →
      (aggregateData repo AggSvcResult.fail userCtx freshId now elapsed
          createFails req).2 =
        Outcome.resp ⟨500, HttpBody.errMsg ("Error executing aggregate")⟩) ∧
    (∀ repo userCtx freshId now elapsed createFails req dl dr,
      bindJoinRequest req = true →
      repo req.leftDatasetId = RepoResult.found dl →
      repo req.rightDatasetId = RepoResult.found dr →
      (joinData repo DatasetSvcResult.fail userCtx freshId now elapsed
          createFails req).2 =
        Outcome.resp ⟨500, HttpBody.errMsg ("Error executing join")⟩) := by
  refine ⟨?_, ?_, ?_, ?_⟩
  · intro repo req d hb hf
    simp [queryData, hb, hf]
  · intro repo userCtx freshId now elapsed createFails req d hb hf
    simp [transformData, hb, hf]
  · intro repo userCtx freshId now elapsed createFails req d hb hf
    simp [aggregateData, hb, hf]
  · intro repo userCtx freshId now elapsed createFails req dl dr hb hl hr
    simp [joinData, hb, hl, hr]

/-- C3 witness: the amended theorem applied to a concrete transform
request whose service execution fails. -/
theorem c3_witness :
    (transformData repoOne DatasetSvcResult.fail none 0 0 0 false
        { datasetId := 1, steps := [{ type := "drop" }] }).2 =
      Outcome.resp ⟨500, HttpBody.errMsg ("Error executing transform")⟩ :=
  c3_service_errors_map_to_500.2.1 repoOne none 0 0 0 false
    { datasetId := 1, steps := [{ type := "drop" }] } dsOne (by decide) rfl

/-- C6 (confirmed): when the query pipeline succeeds, the response always
carries the request limit and offset, and the RawSQL field (json
omitempty, so the empty string is an absent raw representation) equals the
raw string returned by the service exactly when include_raw is true in the
request, and is empty whenever include_raw is false, regardless of the raw
string the service returned. -/
theorem c6_raw_sql_only_on_request :
    ∀ repo req d data total rawSQL t, bindQueryRequest req = true →
      repo req.datasetId = RepoResult.found d →
      ((req.includeRaw = false →
        (queryData repo (QuerySvcResult.ok data total rawSQL t) req).2 =
          Outcome.resp ⟨200, HttpBody.queryResp
            { data := data, total := total, limit := req.limit,
              offset := req.offset, rawSQL := "", executionTime := t }⟩) ∧
      (req.includeRaw = true →
        (queryData repo (QuerySvcResult.ok data total rawSQL t) req).2 =
          Outcome.resp ⟨200, HttpBody.queryResp
            { data := data, total := total, limit := req.limit,
              offset := req.offset, rawSQL := rawSQL,
              executionTime := t }⟩)) := by
  intro repo req d data total rawSQL t hb hf
  constructor
  · intro hraw
    simp [queryData, hb, hf, hraw]
  · intro hraw
    simp [queryData, hb, hf, hraw]

/-- C6 witness: a concrete query with include_raw false receives an empty
RawSQL even though the service returned a non-empty raw string. -/
theorem c6_witness :
    (queryData repoOne
        (QuerySvcResult.ok [] 0 ("SELECT * FROM alpha") 3)
        { datasetId := 1 }).2 =
      Outcome.resp ⟨200, HttpBody.queryResp
        { data := [], total := 0, limit := 0, offset := 0, rawSQL := "",
          executionTime := 3 }⟩ :=
  (c6_raw_sql_only_on_request repoOne { datasetId := 1 } dsOne []
    0 ("SELECT * FROM alpha") 3 (by decide) rfl).1 rfl

/-- C10 (confirmed): every ListDatasets call invokes FindAll exactly once
with a page of at least 1 and a page size between 1 and 100 (missing,
non-numeric or sub-1 pages fall back to 1; missing, non-numeric,
non-positive or above-100 page sizes fall back to 10), and a successful
call echoes exactly the clamped page and page_size in the response. -/
theorem c10_pagination_clamped :
    ∀ findAllRes pageQ pageSizeQ nameQ tagQ,
      (listDatasets findAllRes pageQ pageSizeQ nameQ tagQ).1 =
        [CallEvent.findAll (parsePage pageQ) (parsePageSize pageSizeQ)
          (listFilters nameQ tagQ)] ∧
      1 ≤ parsePage pageQ ∧
      1 ≤ parsePageSize pageSizeQ ∧ parsePageSize pageSizeQ ≤ 100 ∧
      (∀ ds total, findAllRes = FindAllResult.ok ds total →
        (listDatasets findAllRes pageQ pageSizeQ nameQ tagQ).2 =
          Outcome.resp ⟨200, HttpBody.listResp
            { datasets := ds.map toDatasetResponse, total := total,
              page := parsePage pageQ,
              pageSize := parsePageSize pageSizeQ }⟩) := by
  intro findAllRes pageQ pageSizeQ nameQ tagQ
  refine ⟨?_, parsePage_pos pageQ, (parsePageSize_bounds pageSizeQ).1,
    (parsePageSize_bounds pageSizeQ).2, ?_⟩
  · cases findAllRes <;> rfl
  · intro ds total h
    subst h
    rfl

/-- C10 witness: concrete malformed parameters (page 0, page_size 1000)
are clamped to 1 and 10 and echoed. -/
theorem c10_witness :
    (listDatasets (FindAllResult.ok [] 5) (some "0") (some "1000")
        none none).2 =
      Outcome.resp ⟨200, HttpBody.listResp
        { datasets := [], total := 5, page := parsePage (some "0"),
          pageSize := parsePageSize (some "1000") }⟩ :=
  (c10_pagination_clamped (FindAllResult.ok [] 5) (some "0") (some "1000")
    none none).2.2.2.2 [] 5 rfl

/-- C5 (confirmed): on every execution path of the four query operations,
the trace contains no Update, Delete or FindAll repository call, and every
Create call happens only when save_as is set and persists a dataset
carrying the freshly generated id, never a resolved input dataset;
QueryData performs no Create at all. -/
theorem c5_repository_frame :
    (∀ repo svc req, ∀ e ∈ (queryData repo svc req).1,
      isRepoMutation e = false ∧ isFindAllEvent e = false ∧
      isCreateEvent e = false) ∧
    (∀ repo svc userCtx freshId now elapsed createFails req,
      ∀ e ∈ (transformData repo svc userCtx freshId now elapsed
          createFails req).1,
      isRepoMutation e = false ∧ isFindAllEvent e = false ∧
      ∀ d, createdDataset e = some d → req.saveAs ≠ "" ∧ d.id = freshId) ∧
    (∀ repo svc userCtx freshId now elapsed createFails req,
      ∀ e ∈ (aggregateData repo svc userCtx freshId now elapsed
          createFails req).1,
      isRepoMutation e = false ∧ isFindAllEvent e = false ∧
      ∀ d, createdDataset e = some d → req.saveAs ≠ "" ∧ d.id = freshId) ∧
    (∀ repo svc userCtx freshId now elapsed createFails req,
      ∀ e ∈ (joinData repo svc userCtx freshId now elapsed
          createFails req).1,
      isRepoMutation e = false ∧ isFindAllEvent e = false ∧
      ∀ d, createdDataset e = some d → req.saveAs ≠ "" ∧ d.id = freshId) := by
  refine ⟨?_, ?_, ?_, ?_⟩
  · intro repo svc req e he
    rcases queryData_trace_shape repo svc req with h | h | h <;> rw [h] at he
    · exact absurd he (List.not_mem_nil e)
    · simp only [List.mem_singleton] at he
      subst he
      exact ⟨rfl, rfl, rfl⟩
    · simp only [List.mem_cons, List.mem_singleton, List.not_mem_nil,
        or_false] at he
      rcases he with rfl | rfl
      · exact ⟨rfl, rfl, rfl⟩
      · exact ⟨rfl, rfl, rfl⟩
  · intro repo svc userCtx freshId now elapsed createFails req e he
    rcases transformData_trace_shape repo svc userCtx freshId now elapsed
        createFails req with h | h | h | ⟨d, h, hid, hsave⟩ <;> rw [h] at he
    · exact absurd he (List.not_mem_nil e)
    · simp only [List.mem_singleton] at he
      subst he
      exact ⟨rfl, rfl, fun d hd => by simp [createdDataset] at hd⟩
    · simp only [List.mem_cons, List.not_mem_nil, or_false] at he
      rcases he with rfl | rfl
      · exact ⟨rfl, rfl, fun d hd => by simp [createdDataset] at hd⟩
      · exact ⟨rfl, rfl, fun d hd => by simp [createdDataset] at hd⟩
    · simp only [List.mem_cons, List.not_mem_nil, or_false] at he
      rcases he with rfl | rfl | rfl
      · exact ⟨rfl, rfl, fun d0 hd0 => by simp [createdDataset] at hd0⟩
      · exact ⟨rfl, rfl, fun d0 hd0 => by simp [createdDataset] at hd0⟩
      · refine ⟨rfl, rfl, fun d0 hd0 => ?_⟩
        simp only [createdDataset, Option.some.injEq] at hd0
        subst hd0
        exact ⟨hsave, hid⟩
  · intro repo svc userCtx freshId now elapsed createFails req e he
    rcases aggregateData_trace_shape repo svc userCtx freshId now elapsed
        createFails req with h | h | h | ⟨d, h, hid, hsave⟩ <;> rw [h] at he
    · exact absurd he (List.not_mem_nil e)
    · simp only [List.mem_singleton] at he
      subst he
      exact ⟨rfl, rfl, fun d hd => by simp [createdDataset] at hd⟩
    · simp only [List.mem_cons, List.not_mem_nil, or_false] at he
      rcases he with rfl | rfl
      · exact ⟨rfl, rfl, fun d hd => by simp [createdDataset] at hd⟩
      · exact ⟨rfl, rfl, fun d hd => by simp [createdDataset] at hd⟩
    · simp only [List.mem_cons, List.not_mem_nil, or_false] at he
      rcases he with rfl | rfl | rfl
      · exact ⟨rfl, rfl, fun d0 hd0 => by simp [createdDataset] at hd0⟩
      · exact ⟨rfl, rfl, fun d0 hd0 => by simp [createdDataset] at hd0⟩
      · refine ⟨rfl, rfl, fun d0 hd0 => ?_⟩
        simp only [createdDataset, Option.some.injEq] at hd0
        subst hd0
        exact ⟨hsave, hid⟩
  · intro repo svc userCtx freshId now elapsed createFails req e he
    rcases joinData_trace_shape repo svc userCtx freshId now elapsed
        createFails req with h | h | h | h | ⟨d, h, hid, hsave⟩ <;> rw [h] at he
    · exact absurd he (List.not_mem_nil e)
    · simp only [List.mem_singleton] at he
      subst he
      exact ⟨rfl, rfl, fun d hd => by simp [createdDataset] at hd⟩
    · simp only [List.mem_cons, List.not_mem_nil, or_false] at he
      rcases he with rfl | rfl
      · exact ⟨rfl, rfl, fun d hd => by simp [createdDataset] at hd⟩
      · exact ⟨rfl, rfl, fun d hd => by simp [createdDataset] at hd⟩
    · simp only [List.mem_cons, List.not_mem_nil, or_false] at he
      rcases he with rfl | rfl | rfl
      · exact ⟨rfl, rfl, fun d hd => by simp [createdDataset] at hd⟩
      · exact ⟨rfl, rfl, fun d hd => by simp [createdDataset] at hd⟩
      · exact ⟨rfl, rfl, fun d hd => by simp [createdDataset] at hd⟩
    · simp only [List.mem_cons, List.not_mem_nil, or_false] at he
      rcases he with rfl | rfl | rfl | rfl
      · exact ⟨rfl, rfl, fun d0 hd0 => by simp [createdDataset] at hd0⟩
      · exact ⟨rfl, rfl, fun d0 hd0 => by simp [createdDataset] at hd0⟩
      · exact ⟨rfl, rfl, fun d0 hd0 => by simp [createdDataset] at hd0⟩
      · refine ⟨rfl, rfl, fun d0 hd0 => ?_⟩
        simp only [createdDataset, Option.some.injEq] at hd0
        subst hd0
        exact ⟨hsave, hid⟩

/-- C5 witness: the frame theorem applied to the concrete FindByID event
of a concrete query invocation. -/
theorem c5_witness :
    isRepoMutation (CallEvent.findByID 1) = false ∧
    isFindAllEvent (CallEvent.findByID 1) = false ∧
    isCreateEvent (CallEvent.findByID 1) = false :=
  c5_repository_frame.1 repoOne QuerySvcResult.fail { datasetId := 1 }
    (CallEvent.findByID 1) (by decide)

/-- C8 (confirmed): on both the save_as path and the direct-return path of
TransformData and JoinData, a service result whose Data is not of dynamic
type []map[string]interface{} (nil included) makes the handler panic via
its unchecked type assertion instead of returning an error response, and
when Data is of that type the handler never panics. -/
theorem c8_unchecked_type_assertions :
    (∀ repo svc userCtx freshId now elapsed createFails req dataset result
        userId,
      bindTransformRequest req = true →
      repo req.datasetId = RepoResult.found dataset →
      svc = DatasetSvcResult.ok result → result.data = DataVal.other →
      req.saveAs ≠ "" → userCtx = some userId →
      (transformData repo svc userCtx freshId now elapsed createFails req).2 =
        Outcome.panicked) ∧
    (∀ repo svc userCtx freshId now elapsed createFails req dataset result,
      bindTransformRequest req = true →
      repo req.datasetId = RepoResult.found dataset →
      svc = DatasetSvcResult.ok result → result.data = DataVal.other →
      req.saveAs = "" →
      (transformData repo svc userCtx freshId now elapsed createFails req).2 =
        Outcome.panicked) ∧
    (∀ repo svc userCtx freshId now elapsed createFails req dl dr result
        userId,
      bindJoinRequest req = true →
      repo req.leftDatasetId = RepoResult.found dl →
      repo req.rightDatasetId = RepoResult.found dr →
      svc = DatasetSvcResult.ok result → result.data = DataVal.other →
      req.saveAs ≠ "" → userCtx = some userId →
      (joinData repo svc userCtx freshId now elapsed createFails req).2 =
        Outcome.panicked) ∧
    (∀ repo svc userCtx freshId now elapsed createFails req dl dr result,
      bindJoinRequest req = true →
      repo req.leftDatasetId = RepoResult.found dl →
      repo req.rightDatasetId = RepoResult.found dr →
      svc = DatasetSvcResult.ok result → result.data = DataVal.other →
      req.saveAs = "" →
      (joinData repo svc userCtx freshId now elapsed createFails req).2 =
        Outcome.panicked) ∧
    (∀ repo svc userCtx freshId now elapsed createFails req result rs,
      svc = DatasetSvcResult.ok result → result.data = DataVal.rows rs →
      (transformData repo svc userCtx freshId now elapsed createFails req).2 ≠
        Outcome.panicked) ∧
    (∀ repo svc userCtx freshId now elapsed createFails req result rs,
      svc = DatasetSvcResult.ok result → result.data = DataVal.rows rs →
      (joinData repo svc userCtx freshId now elapsed createFails req).2 ≠
        Outcome.panicked) := by
  refine ⟨?_, ?_, ?_, ?_, ?_, ?_⟩
  · intro repo svc userCtx freshId now elapsed createFails req dataset result
      userId hb hf hsvc hdata hsave huser
    subst hsvc
    subst huser
    simp [transformData, hb, hf, hdata, hsave]
  · intro repo svc userCtx freshId now elapsed createFails req dataset result
      hb hf hsvc hdata hsave
    subst hsvc
    simp [transformData, hb, hf, hdata, hsave]
  · intro repo svc userCtx freshId now elapsed createFails req dl dr result
      userId hb hl hr hsvc hdata hsave huser
    subst hsvc
    subst huser
    simp [joinData, hb, hl, hr, hdata, hsave]
  · intro repo svc userCtx freshId now elapsed createFails req dl dr result
      hb hl hr hsvc hdata hsave
    subst hsvc
    simp [joinData, hb, hl, hr, hdata, hsave]
  · intro repo svc userCtx freshId now elapsed createFails req result rs
      hsvc hdata
    subst hsvc
    simp only [transformData, hdata]
    split
    · simp
    · split
      · simp
      · simp
      · split
        · split
          · simp
          · split <;> simp
        · simp
  · intro repo svc userCtx freshId now elapsed createFails req result rs
      hsvc hdata
    subst hsvc
    simp only [joinData, hdata]
    split
    · simp
    · split
      · simp
      · simp
      · split
        · simp
        · simp
        · split
          · split
            · simp
            · split <;> simp
          · simp

/-- C8 witness: a concrete transform whose service result carries a Data
value that is not a row slice panics on the save_as path. -/
theorem c8_witness :
    (transformData repoOne (DatasetSvcResult.ok dsOne) (some 7) 99 0 0 false
        { datasetId := 1, steps := [{ type := "drop" }],
          saveAs := "out" }).2 = Outcome.panicked :=
  c8_unchecked_type_assertions.1 repoOne (DatasetSvcResult.ok dsOne) (some 7)
    99 0 0 false
    { datasetId := 1, steps := [{ type := "drop" }], saveAs := "out" }
    dsOne dsOne 7 (by decide) rfl rfl rfl (by decide) rfl

/-- C9 (confirmed): on the direct-return path of TransformData and
JoinData, the response rows are the service rows projected onto the result
schema: looking up a name in a projected row yields the original value
(null when the row lacks it) exactly when the name is a schema field, and
nothing otherwise, so row keys outside the schema are dropped and missing
schema fields surface as null. -/
theorem c9_direct_return_projection :
    (∀ repo svc userCtx freshId now elapsed createFails req dataset result rs,
      bindTransformRequest req = true →
      repo req.datasetId = RepoResult.found dataset →
      svc = DatasetSvcResult.ok result → result.data = DataVal.rows rs →
      req.saveAs = "" →
      (transformData repo svc userCtx freshId now elapsed createFails req).2 =
        Outcome.resp ⟨200, HttpBody.dataResp
          (rs.map (projectRow result.schema.fields))
          (Int.ofNat (rs.map (projectRow result.schema.fields)).length)
          elapsed⟩) ∧
    (∀ repo svc userCtx freshId now elapsed createFails req dl dr result rs,
      bindJoinRequest req = true →
      repo req.leftDatasetId = RepoResult.found dl →
      repo req.rightDatasetId = RepoResult.found dr →
      svc = DatasetSvcResult.ok result → result.data = DataVal.rows rs →
      req.saveAs = "" →
      (joinData repo svc userCtx freshId now elapsed createFails req).2 =
        Outcome.resp ⟨200, HttpBody.dataResp
          (rs.map (projectRow result.schema.fields))
          (Int.ofNat (rs.map (projectRow result.schema.fields)).length)
          elapsed⟩) ∧
    (∀ (fields : List DataField) (row : Row) (n : String),
      lookupRow (projectRow fields row) n =
        if n ∈ fields.map DataField.name then
          some ((lookupRow row n).getD GoVal.vnull)
        else none) := by
  refine ⟨?_, ?_, lookupRow_projectRow⟩
  · intro repo svc userCtx freshId now elapsed createFails req dataset result
      rs hb hf hsvc hdata hsave
    subst hsvc
    simp [transformData, hb, hf, hdata, hsave]
  · intro repo svc userCtx freshId now elapsed createFails req dl dr result
      rs hb hl hr hsvc hdata hsave
    subst hsvc
    simp [joinData, hb, hl, hr, hdata, hsave]

/-- C9 witness: a concrete transform result row with an extra key b under
a schema listing only a is returned as the single-key row a, and the
projected lookups behave as characterized. -/
theorem c9_witness :
    (transformData repoOne (DatasetSvcResult.ok resultRowsDs) none 0 0 0 false
        { datasetId := 1, steps := [{ type := "drop" }] }).2 =
      Outcome.resp ⟨200, HttpBody.dataResp ([[("a", GoVal.vint 1)]]) 1 0⟩ :=
  c9_direct_return_projection.1 repoOne (DatasetSvcResult.ok resultRowsDs)
    none 0 0 0 false { datasetId := 1, steps := [{ type := "drop" }] }
    dsOne resultRowsDs [[("a", GoVal.vint 1), ("b", GoVal.vint 2)]]
    (by decide) rfl rfl rfl rfl

/-- C2 counterexample: aggregating srcDatasetC2 grouped by its
integer-typed region field persists a schema typing region as string, not
as it is typed in the source schema. -/
theorem c2_counterexample :
    ((aggregateData repoC2 (AggSvcResult.ok []) (some 7) 99 0 0 false
          reqC2).1.filterMap createdDataset).map
        (fun d => d.schema.fields.map (fun f => (f.name, f.type))) =
      [[("region", DataTypeString), ("total", DataTypeFloat)]] ∧
    srcSchemaC2.fields.map (fun f => (f.name, f.type)) =
      [("region", DataTypeInteger), ("sales", DataTypeFloat)] ∧
    DataTypeString ≠ DataTypeInteger := by
  refine ⟨rfl, rfl, by decide⟩

/-- C2 (amended): when an aggregate request with save_as succeeds, the
persisted schema consists of one field per group_by entry, each typed
string regardless of the source schema (the source hard-codes string,
commenting the choice as a simplification), followed by one field per
aggregation named by its output_name and typed integer for count, float
for sum, avg, min and max (and float in the default branch). -/
theorem c2_saved_aggregate_schema :
    ∀ repo svc userCtx freshId now elapsed req dataset result userId,
      bindAggregateRequest req = true →
      repo req.datasetId = RepoResult.found dataset →
      svc = AggSvcResult.ok result →
      req.saveAs ≠ "" → userCtx = some userId →
      ∃ d, CallEvent.create d ∈
          (aggregateData repo svc userCtx freshId now elapsed false req).1 ∧
        d.schema.fields =
          req.groupBy.map (fun f =>
            { name := f, type := DataTypeString, required := true,
              nullable := false }) ++
          req.aggregations.map (fun a =>
            { name := a.outputName, type := aggFieldType a.type,
              required := true, nullable := false }) ∧
        aggFieldType AggregationCount = DataTypeInteger ∧
        aggFieldType AggregationSum = DataTypeFloat ∧
        aggFieldType AggregationAvg = DataTypeFloat ∧
        aggFieldType AggregationMin = DataTypeFloat ∧
        aggFieldType AggregationMax = DataTypeFloat := by
  intro repo svc userCtx freshId now elapsed req dataset result userId
    hb hf hsvc hsave huser
  subst hsvc
  subst huser
  refine ⟨{ id := freshId, name := req.saveAs,
            description := "Aggregated from " ++ dataset.name,
            schema := { fields := aggSchemaFields req.groupBy req.aggregations },
            source := "aggregate", format := dataset.format,
            rowCount := Int.ofNat result.length, tags := dataset.tags,
            metadata :=
              [("source_dataset", MetaVal.mstr (uuidStr dataset.id)),
               ("group_by", MetaVal.mstrs req.groupBy),
               ("aggregations", MetaVal.maggs req.aggregations)],
            createdBy := userId, createdAt := now, updatedAt := now },
    ?_, rfl, rfl, rfl, rfl, rfl, rfl⟩
  simp [aggregateData, hb, hf, hsave]

/-- C2 witness: the amended theorem applied to the concrete request of the
counterexample; the persisted column types are string then float. -/
theorem c2_schema_witness :
    ∃ d, CallEvent.create d ∈
        (aggregateData repoC2 (AggSvcResult.ok []) (some 7) 99 0 0 false
          reqC2).1 ∧
      d.schema.fields.map (fun f => f.type) =
        [DataTypeString, DataTypeFloat] := by
  obtain ⟨d, hmem, hfields, -, -, -, -, -⟩ :=
    c2_saved_aggregate_schema repoC2 (AggSvcResult.ok []) (some 7) 99 0 0
      reqC2 srcDatasetC2 [] 7 (by decide) rfl rfl (by decide) rfl
  refine ⟨d, hmem, ?_⟩
  rw [hfields]
  rfl

/-- C4 (confirmed): a successful transform, aggregate or join with save_as
persists a new dataset carrying the freshly generated id, named by
save_as, owned by the authenticated user, and whose metadata records the
source dataset id and transform steps, the source dataset id with group_by
and aggregations, and both source dataset ids with join type and
conditions, respectively. -/
theorem c4_saved_dataset_provenance :
    (∀ repo svc userCtx freshId now elapsed req dataset result rs userId,
      bindTransformRequest req = true →
      repo req.datasetId = RepoResult.found dataset →
      svc = DatasetSvcResult.ok result → result.data = DataVal.rows rs →
      req.saveAs ≠ "" → userCtx = some userId →
      ∃ d, CallEvent.create d ∈
          (transformData repo svc userCtx freshId now elapsed false req).1 ∧
        d.id = freshId ∧ d.name = req.saveAs ∧ d.createdBy = userId ∧
        metaLookup d.metadata ("source_dataset") =
          some (MetaVal.mstr (uuidStr dataset.id)) ∧
        metaLookup d.metadata ("transform_steps") =
          some (MetaVal.msteps req.steps)) ∧
    (∀ repo svc userCtx freshId now elapsed req dataset result userId,
      bindAggregateRequest req = true →
      repo req.datasetId = RepoResult.found dataset →
      svc = AggSvcResult.ok result →
      req.saveAs ≠ "" → userCtx = some userId →
      ∃ d, CallEvent.create d ∈
          (aggregateData repo svc userCtx freshId now elapsed false req).1 ∧
        d.id = freshId ∧ d.name = req.saveAs ∧ d.createdBy = userId ∧
        metaLookup d.metadata ("source_dataset") =
          some (MetaVal.mstr (uuidStr dataset.id)) ∧
        metaLookup d.metadata ("group_by") =
          some (MetaVal.mstrs req.groupBy) ∧
        metaLookup d.metadata ("aggregations") =
          some (MetaVal.maggs req.aggregations)) ∧
    (∀ repo svc userCtx freshId now elapsed req dl dr result rs userId,
      bindJoinRequest req = true →
      repo req.leftDatasetId = RepoResult.found dl →
      repo req.rightDatasetId = RepoResult.found dr →
      svc = DatasetSvcResult.ok result → result.data = DataVal.rows rs →
      req.saveAs ≠ "" → userCtx = some userId →
      ∃ d, CallEvent.create d ∈
          (joinData repo svc userCtx freshId now elapsed false req).1 ∧
        d.id = freshId ∧ d.name = req.saveAs ∧ d.createdBy = userId ∧
        metaLookup d.metadata ("left_dataset") =
          some (MetaVal.mstr (uuidStr dl.id)) ∧
        metaLookup d.metadata ("right_dataset") =
          some (MetaVal.mstr (uuidStr dr.id)) ∧
        metaLookup d.metadata ("join_type") =
          some (MetaVal.mstr req.joinType) ∧
        metaLookup d.metadata ("conditions") =
          some (MetaVal.mconds req.conditions)) := by
  refine ⟨?_, ?_, ?_⟩
  · intro repo svc userCtx freshId now elapsed req dataset result rs userId
      hb hf hsvc hdata hsave huser
    subst hsvc
    subst huser
    refine ⟨{ id := freshId, name := req.saveAs,
              description := "Transformed from " ++ dataset.name,
              schema := result.schema, source := "transform",
              format := dataset.format, size := result.size,
              rowCount := Int.ofNat rs.length, tags := dataset.tags,
              metadata :=
                [("source_dataset", MetaVal.mstr (uuidStr dataset.id)),
                 ("transform_steps", MetaVal.msteps req.steps)],
              createdBy := userId, createdAt := now, updatedAt := now },
      ?_, rfl, rfl, rfl, rfl, rfl⟩
    simp [transformData, hb, hf, hsave, hdata]
  · intro repo svc userCtx freshId now elapsed req dataset result userId
      hb hf hsvc hsave huser
    subst hsvc
    subst huser
    refine ⟨{ id := freshId, name := req.saveAs,
              description := "Aggregated from " ++ dataset.name,
              schema := { fields := aggSchemaFields req.groupBy req.aggregations },
              source := "aggregate", format := dataset.format,
              rowCount := Int.ofNat result.length, tags := dataset.tags,
              metadata :=
                [("source_dataset", MetaVal.mstr (uuidStr dataset.id)),
                 ("group_by", MetaVal.mstrs req.groupBy),
                 ("aggregations", MetaVal.maggs req.aggregations)],
              createdBy := userId, createdAt := now, updatedAt := now },
      ?_, rfl, rfl, rfl, rfl, rfl, rfl⟩
    simp [aggregateData, hb, hf, hsave]
  · intro repo svc userCtx freshId now elapsed req dl dr result rs userId
      hb hl hr hsvc hdata hsave huser
    subst hsvc
    subst huser
    refine ⟨{ id := freshId, name := req.saveAs,
              description := "Joined from " ++ dl.name ++ " and " ++ dr.name,
              schema := result.schema, source := "join",
              format := dl.format, size := result.size,
              rowCount := Int.ofNat rs.length, tags := dl.tags ++ dr.tags,
              metadata :=
                [("left_dataset", MetaVal.mstr (uuidStr dl.id)),
                 ("right_dataset", MetaVal.mstr (uuidStr dr.id)),
                 ("join_type", MetaVal.mstr req.joinType),
                 ("conditions", MetaVal.mconds req.conditions)],
              createdBy := userId, createdAt := now, updatedAt := now },
      ?_, rfl, rfl, rfl, rfl, rfl, rfl, rfl⟩
    simp [joinData, hb, hl, hr, hsave, hdata]

/-- C4 witness: a concrete successful transform with save_as persists the
fresh id 99, the requested name and the user id 7. -/
theorem c4_witness :
    ∃ d, CallEvent.create d ∈
        (transformData repoOne (DatasetSvcResult.ok resultRowsDs) (some 7)
          99 5 0 false
          { datasetId := 1, steps := [{ type := "drop" }],
            saveAs := "out" }).1 ∧
      d.id = 99 ∧ d.name = "out" ∧ d.createdBy = 7 := by
  obtain ⟨d, hmem, hid, hname, huser, -, -⟩ :=
    c4_saved_dataset_provenance.1 repoOne (DatasetSvcResult.ok resultRowsDs)
      (some 7) 99 5 0
      { datasetId := 1, steps := [{ type := "drop" }], saveAs := "out" }
      dsOne resultRowsDs [[("a", GoVal.vint 1), ("b", GoVal.vint 2)]] 7
      (by decide) rfl rfl rfl (by decide) rfl
  exact ⟨d, hmem, hid, hname, huser⟩

/-- C7 counterexample: a sum aggregation whose field entry is absent (the
Go zero value) passes request binding and the whole aggregate request is
processed to a 200 response instead of being rejected as malformed. -/
theorem c7_counterexample :
    reqC7.aggregations.map (fun a => (a.type, a.field)) =
      [(AggregationSum, "")] ∧
    bindAggregateRequest reqC7 = true ∧
    (aggregateData repoOne (AggSvcResult.ok []) none 0 0 0 false reqC7).2 =
      Outcome.resp ⟨200, HttpBody.dataResp [] 0 0⟩ := by
  refine ⟨rfl, rfl, rfl⟩

/-- C7 (amended): request validation never inspects the field entry of an
AggregationField for any aggregation type: blanking every field entry does
not change the binding verdict, and a request whose only aggregation has
any type with an absent field passes binding whenever its dataset id is
non-zero. -/
theorem c7_field_never_required :
    (∀ req : AggregateRequest,
      bindAggregateRequest
        { req with aggregations :=
            req.aggregations.map (fun a => { a with field := "" }) } =
      bindAggregateRequest req) ∧
    (∀ (t oname : String) (dsId : Nat), dsId ≠ 0 →
      bindAggregateRequest
        { datasetId := dsId,
          aggregations := [{ type := t, outputName := oname }] } = true) := by
  constructor
  · intro req
    rcases h : req.aggregations with _ | ⟨a, as⟩ <;>
      simp [bindAggregateRequest, h]
  · intro t oname dsId h
    simp [bindAggregateRequest, h]

/-- C7 witness: the amended theorem applied to a concrete avg aggregation
without a field. -/
theorem c7_witness :
    bindAggregateRequest
      { datasetId := 5,
        aggregations := [{ type := AggregationAvg, outputName := "m" }] } =
      true :=
  c7_field_never_required.2 AggregationAvg "m" 5 (by decide)

end DataApi
